import Mathlib

/-!
Verification development for the Hybrid-Song-Recommendation-System repository.

The Streamlit front end `src/app.py` is embedded shallowly below:
- pandas DataFrames holding the song catalog become `List SongRow`;
- sparse matrices become `List (List ℚ)` (rows of rationals);
- the module-level artifact loading (app.py lines 117-177) becomes
  `loadArtifacts` over a record of optionally-present data files;
- the query dispatch (lines 199-307) becomes `runApp`, returning a
  `RunOutcome` value instead of writing to the Streamlit page;
- the pandas cell value fetched by `recommendation.get('spotify_preview_url')`
  is modelled by `PyVal`, distinguishing Python `None`, a float NaN cell and a
  string cell, so that the truthiness dance `str(x or '').strip()` can be
  reproduced exactly.

The modules `content_based_filtering.py`, `hybrid_recommendations.py` and
`data_cleaning.py` are imported by `src/app.py` but are not part of the
sources; the definitions that stand in for them are modelled from the spec
and say so in their doc comments.
-/

set_option autoImplicit false

namespace SongRec

/-- A Python-ish cell value as returned by `Series.get`: `None`, a float NaN
(pandas' missing marker, which is *truthy* in Python), or a string. -/
inductive PyVal where
  | none
  | nanFloat
  | str (s : String)
  deriving DecidableEq, Repr

/-- Evaluation of `str(v or '')` for a `PyVal` `v`: Python `or` replaces falsy values
(`None`, the empty string) by `''`; a float NaN is truthy and stringifies to
`"nan"`. Embeds the expression on app.py lines 246/253/259/289/296/302. -/
def pyStrOrEmpty : PyVal → String
  | .none => ""
  | .nanFloat => "nan"
  | .str s => s

/-- Python's `s.lower()`: every character lowercased. (Stated over the
character list so that it evaluates by kernel reduction.) -/
def pyLower (s : String) : String :=
  String.mk (s.data.map Char.toLower)

/-- Python's `s.strip()`: whitespace removed from both ends. -/
def pyStrip (s : String) : String :=
  String.mk
    (((s.data.dropWhile Char.isWhitespace).reverse.dropWhile
      Char.isWhitespace).reverse)

/-- One row of the song catalog (`cleaned_data.csv` / `collab_filtered_data.csv`).
The filtered catalog additionally carries the track identifier linking the row
to an interaction-matrix column; for the plain catalog the field is unused. -/
structure SongRow where
  name : String
  artist : String
  spotify_preview_url : PyVal
  track_id : String
  deriving DecidableEq, Repr

/-- The boolean Series test
`((df["name"] == song_name) & (df["artist"] == artist_name)).any()`
of app.py lines 202 and 230. -/
def anyMatch (catalog : List SongRow) (song artist : String) : Bool :=
  catalog.any fun r => r.name == song && r.artist == artist

/-- Resolution of a (title, artist) query to the first matching catalog row
position. The equality test is the one of app.py line 230; the caller has
already lowercased the query (lines 192-193), which `resolveQuery` performs
itself so that it can be stated about raw queries. First match in catalog
order, as the spec's CatalogIndex prescribes. -/
def resolveQuery (catalog : List SongRow) (title artist : String) : Option Nat :=
  catalog.findIdx? fun r => r.name == pyLower title && r.artist == pyLower artist

/-! ### Linear algebra scaffolding for the recommenders -/

/-- Dot product of two rational vectors. -/
def dotProd (a b : List ℚ) : ℚ :=
  ((a.zip b).map fun p => p.1 * p.2).sum

/-- Column `j` of a matrix stored as a list of rows (missing entries read 0). -/
def matCol (m : List (List ℚ)) (j : Nat) : List ℚ :=
  m.map fun row => row.getD j 0

/-- Stable insertion into a list sorted by strictly descending score: the new
element goes after every element whose score is at least as large, so equal
scores keep their original relative order (the spec's deterministic
tie-breaking by row order). -/
def insertDesc (x : Nat × ℚ) : List (Nat × ℚ) → List (Nat × ℚ)
  | [] => [x]
  | y :: ys => if y.2 < x.2 then x :: y :: ys else y :: insertDesc x ys

/-- Stable sort by descending score. -/
def sortDesc : List (Nat × ℚ) → List (Nat × ℚ)
  | [] => []
  | x :: xs => insertDesc x (sortDesc xs)

/-- Pair every score with its row index. -/
def enumScores (scores : List ℚ) : List (Nat × ℚ) :=
  (List.range scores.length).zip scores

/-- Modelled from the spec: the RecommendationRanker contract `top_k` of
spec §4.5 (its implementation lives in the absent `content_based_filtering.py`
and `hybrid_recommendations.py`): drop the query's own row, stable-sort the
rest by descending score, keep the first `k` row indices. -/
def top_k (scores : List ℚ) (excludeIdx k : Nat) : List Nat :=
  (((sortDesc ((enumScores scores).filter fun p => p.1 ≠ excludeIdx)).take k).map
    Prod.fst)

/-- Map the ranked row indices back to catalog rows. -/
def topKRows (catalog : List SongRow) (scores : List ℚ) (excludeIdx k : Nat) :
    List SongRow :=
  (top_k scores excludeIdx k).filterMap fun i => catalog.get? i

/-- Modelled from the spec: `content_recommendation` of the absent
`content_based_filtering.py`. Per spec §4.2/§4.5 and §3 it resolves the
(already lowercased) query in the catalog, scores every catalog row against
the query row's feature vector (the similarity measure — cosine in the spec —
is abstracted as the parameter `sim`), excludes the query row, ranks the rest,
and returns the query row itself first (the rank-0 "currently playing" slot)
followed by the top-k rows. An unresolvable query yields the empty frame. -/
def content_recommendation (sim : List ℚ → List ℚ → ℚ) (song artist : String)
    (songs_data : List SongRow) (transformed_data : List (List ℚ)) (k : Nat) :
    List SongRow :=
  match songs_data.findIdx? (fun r => r.name == song && r.artist == artist) with
  | Option.none => []
  | Option.some i =>
    match songs_data.get? i with
    | Option.none => []
    | Option.some qrow =>
      let qvec := transformed_data.getD i []
      let scores := transformed_data.map (sim qvec)
      qrow :: topKRows songs_data scores i k

/-- Modelled from the spec: `HybridRecommenderSystem.give_recommendations` of
the absent `hybrid_recommendations.py`. Per spec §4.3-§4.5 it resolves the
query in the filtered catalog, computes content scores from the transformed
hybrid matrix and collaborative scores from the interaction-matrix columns
(the query's column found through the track identifier list), blends them
linearly with `weight_content`, and returns the query row followed by the
top-k ranked rows. Cosine similarity is abstracted as `csim`/`isim`; per spec
§4.4 cosine scores are already comparable, so no rescaling is applied. A query
absent from the filtered catalog, or a track identifier absent from the list,
yields the empty frame (the spec's NotFound). -/
def give_recommendations (csim isim : List ℚ → List ℚ → ℚ) (k : Nat)
    (weight_content : ℚ) (song artist : String) (songs_data : List SongRow)
    (transformed_matrix : List (List ℚ)) (track_ids : List String)
    (interaction_matrix : List (List ℚ)) : List SongRow :=
  match songs_data.findIdx? (fun r => r.name == song && r.artist == artist) with
  | Option.none => []
  | Option.some i =>
    match songs_data.get? i with
    | Option.none => []
    | Option.some qrow =>
      match track_ids.findIdx? (fun t => t == qrow.track_id) with
      | Option.none => []
      | Option.some j =>
        let qvec := transformed_matrix.getD i []
        let contentScores := transformed_matrix.map (csim qvec)
        let qcol := matCol interaction_matrix j
        let collabScores := (List.range songs_data.length).map fun j2 =>
          isim qcol (matCol interaction_matrix j2)
        let scores := (contentScores.zip collabScores).map fun p =>
          weight_content * p.1 + (1 - weight_content) * p.2
        qrow :: topKRows songs_data scores i k

/-! ### The display loops (app.py lines 239-262 and 282-305)

The content loop and the hybrid loop are textually identical in the source,
so a single `displayRecommendation` embeds both. -/

/-- Python's `str.title()` restricted to the alphabetic/non-alphabetic
boundary rule: a letter following a non-letter is uppercased, a letter
following a letter is lowercased, other characters pass through. -/
def pyTitleChars : Bool → List Char → List Char
  | _, [] => []
  | prevAlpha, c :: cs =>
    (if c.isAlpha then (if prevAlpha then c.toLower else c.toUpper) else c) ::
      pyTitleChars c.isAlpha cs

/-- Python's `s.title()` on a string. -/
def pyTitle (s : String) : String :=
  String.mk (pyTitleChars false s.data)

/-- The audio-preview guard
`_url = str(recommendation.get('spotify_preview_url') or '').strip()` followed
by `if _url and _url.lower() != 'nan': st.audio(_url)`: the rendered preview
URL, or `none` when the guard skips the `st.audio` call. -/
def stripUrl (v : PyVal) : String :=
  pyStrip (pyStrOrEmpty v)

/-- Evaluation of `if _url and _url.lower() != 'nan': st.audio(_url)` for
the stripped `_url` above. -/
def audioUrl (v : PyVal) : Option String :=
  if stripUrl v ≠ "" && pyLower (stripUrl v) != "nan" then
    Option.some (stripUrl v)
  else Option.none

/-- One rendered recommendation block. `currentlyPlaying` is the `ind == 0`
branch (the "Currently Playing" header, no numeric rank shown); `nextUp` is
the `ind == 1` branch (the "Next Up" header plus the printed rank `ind`);
`ranked` is the `else` branch (the printed rank `ind`). -/
inductive DisplayItem where
  | currentlyPlaying (name artist : String) (audio : Option String)
  | nextUp (rank : Nat) (name artist : String) (audio : Option String)
  | ranked (rank : Nat) (name artist : String) (audio : Option String)
  deriving DecidableEq, Repr

/-- The body of the display loop for one `(ind, recommendation)` pair. -/
def displayRecommendation (ind : Nat) (r : SongRow) : DisplayItem :=
  if ind == 0 then
    .currentlyPlaying (pyTitle r.name) (pyTitle r.artist)
      (audioUrl r.spotify_preview_url)
  else if ind == 1 then
    .nextUp ind (pyTitle r.name) (pyTitle r.artist)
      (audioUrl r.spotify_preview_url)
  else
    .ranked ind (pyTitle r.name) (pyTitle r.artist)
      (audioUrl r.spotify_preview_url)

/-- The loop `for ind, recommendation in recommendations.iterrows()` starting at
index `n` (the frames built per query carry the default positional index). -/
def displayFrom : Nat → List SongRow → List DisplayItem
  | _, [] => []
  | n, r :: rs => displayRecommendation n r :: displayFrom (n + 1) rs

/-- The whole display loop over a recommendations frame. -/
def displayAll (recs : List SongRow) : List DisplayItem :=
  displayFrom 0 recs

/-- The numeric rank a display block prints, if any: the `ind == 0` branch
prints no number, the other two print `ind`. -/
def displayedRank : DisplayItem → Option Nat
  | .currentlyPlaying _ _ _ => Option.none
  | .nextUp r _ _ _ => Option.some r
  | .ranked r _ _ _ => Option.some r

/-- The audio preview a display block renders, if any. -/
def audioOf : DisplayItem → Option String
  | .currentlyPlaying _ _ a => a
  | .nextUp _ _ _ a => a
  | .ranked _ _ _ a => a

/-! ### Module-level artifact loading (app.py lines 117-177) -/

/-- The artifacts held at module scope once loading has finished. -/
structure Artifacts where
  songs_data : List SongRow
  transformed_data : List (List ℚ)
  filtered_data : Option (List SongRow)
  interaction_matrix : Option (List (List ℚ))
  transformed_hybrid_data : Option (List (List ℚ))
  track_ids : Option (List String)
  deriving DecidableEq, Repr

/-- The flag `hybrid_available` (app.py lines 149-177): starts `True` and is cleared
when any one of the four hybrid artifacts is absent. -/
def hybrid_available (a : Artifacts) : Bool :=
  a.filtered_data.isSome && a.interaction_matrix.isSome &&
    a.transformed_hybrid_data.isSome && a.track_ids.isSome

/-- What the `data/` directory offers at start-up: each field is `some`
parsed content when the corresponding file exists and loads, `none`
otherwise. -/
structure DataFiles where
  cleaned_data : Option (List SongRow)
  cleaned_data_sample : Option (List SongRow)
  transformed_data : Option (List (List ℚ))
  collab_filtered_data : Option (List SongRow)
  interaction_matrix : Option (List (List ℚ))
  transformed_hybrid_data : Option (List (List ℚ))
  track_ids : Option (List String)
  deriving DecidableEq, Repr

/-- Outcome of the module-level loading phase: either the bound artifacts
together with the computed `hybrid_available` flag, or `st.stop()`. -/
inductive LoadResult where
  | ok (a : Artifacts) (hybridAvailable : Bool)
  | stopped
  deriving DecidableEq, Repr

/-- A Python call that may mutate its list argument in place as a side
effect: applied to the argument's value, it yields the returned value paired
with the argument's value after the call. -/
def MutFn (α β : Type) : Type := α → β × α

/-- The copy `songs_data.copy()`: a fresh list with the same contents, so that an
in-place mutation of the copy leaves the original untouched. -/
def listCopy (l : List SongRow) : List SongRow :=
  l.map id

/-- The on-the-fly content-feature computation of app.py lines 134-140:
`df_cf = data_for_content_filtering(songs_data.copy())` followed by
`train_transformer(df_cf); transformed_data = transform_data(df_cf)`.
`data_for_content_filtering` (absent `data_cleaning.py`) is an arbitrary,
possibly mutating call; `transform` stands for the transformer pipeline and
may fail (the `except` branch). The result pairs the computed matrix (or
`none` on failure) with the value of the module's `songs_data` after the
block: the cleaning call receives only the copy. -/
def computeFeaturesOnTheFly (songs_data : List SongRow)
    (dfcf : MutFn (List SongRow) (List SongRow))
    (transform : List SongRow → Option (List (List ℚ))) :
    Option (List (List ℚ)) × List SongRow :=
  let df_cf := (dfcf (listCopy songs_data)).1
  (transform df_cf, songs_data)

/-- The module-level loading phase, app.py lines 117-177. The catalog comes
from `cleaned_data.csv`, else the bundled sample, else the page stops; the
content matrix comes from `transformed_data.npz`, else is computed on the fly
(stopping when that fails); each of the four hybrid artifacts is bound when
its file exists and otherwise clears `hybrid_available`. No shape or
alignment of the loaded artifacts is ever inspected. -/
def loadArtifacts (files : DataFiles)
    (dfcf : MutFn (List SongRow) (List SongRow))
    (transform : List SongRow → Option (List (List ℚ))) : LoadResult :=
  match files.cleaned_data.orElse fun _ => files.cleaned_data_sample with
  | Option.none => .stopped
  | Option.some songs_data =>
      let td : Option (List (List ℚ)) :=
        match files.transformed_data with
        | Option.some m => Option.some m
        | Option.none => (computeFeaturesOnTheFly songs_data dfcf transform).1
      match td with
      | Option.none => .stopped
      | Option.some transformed_data =>
        let a : Artifacts :=
          { songs_data := songs_data
            transformed_data := transformed_data
            filtered_data := files.collab_filtered_data
            interaction_matrix := files.interaction_matrix
            transformed_hybrid_data := files.transformed_hybrid_data
            track_ids := files.track_ids }
        .ok a (hybrid_available a)

/-! ### Query dispatch (app.py lines 186-307) -/

/-- The `k` selectbox of app.py line 196: the fixed option list. -/
def kOptions : List Nat := [5, 10, 15, 20]

/-- The selectbox's default position (`index=1`). -/
def kDefaultIndex : Nat := 1

/-- The value the selectbox hands the rest of the page when the user picks
position `choice`. -/
def selectK (choice : Nat) (h : choice < kOptions.length) : Nat :=
  kOptions.get ⟨choice, h⟩

/-- The diversity slider of app.py lines 208-212: `min_value=1, max_value=9`,
clamping like a slider does. -/
def clampDiversity (d : Nat) : Nat :=
  max 1 (min 9 d)

/-- The assignment `content_based_weight = 1 - (diversity / 10)` (app.py line 214), with
Python's true division read over ℚ. -/
def content_based_weight (diversity : Nat) : ℚ :=
  1 - (diversity : ℚ) / 10

/-- The two values `filtering_type` can hold. -/
inductive FilteringType where
  | contentBased
  | hybrid
  deriving DecidableEq, Repr

/-- app.py lines 199-205: `filtering_type` starts as content-based and is
switched to the hybrid recommender exactly when `hybrid_available` holds,
`filtered_data` was bound, and the lowercased (name, artist) pair occurs in
the filtered catalog. (The `except` arm restores content-based; a pure
lookup cannot raise, so it has no separate image here.) -/
def filtering_type (hybridAvailable : Bool)
    (filtered_data : Option (List SongRow)) (song artist : String) :
    FilteringType :=
  if hybridAvailable then
    match filtered_data with
    | Option.some fd =>
      if anyMatch fd song artist then .hybrid else .contentBased
    | Option.none => .contentBased
  else .contentBased

/-- What one button press renders: the content path's recommendation blocks,
the content path's "couldn't find" message, the hybrid path's blocks, or the
warning of the unreachable final `elif`. Every branch of app.py lines 228-307
lands in one of these; none aborts. -/
inductive RunOutcome where
  | contentRecs (items : List DisplayItem)
  | contentNotFound (message : String)
  | hybridRecs (items : List DisplayItem)
  | hybridUnavailableWarning
  deriving DecidableEq, Repr

/-- The content-based branch, app.py lines 228-264: guard on the catalog
(line 230), call `content_recommendation` and display, or print the
not-found message (line 264). `song` and `artist` arrive already
lowercased. -/
def contentBranch (sim : List ℚ → List ℚ → ℚ) (songs_data : List SongRow)
    (transformed_data : List (List ℚ)) (song artist : String) (k : Nat) :
    RunOutcome :=
  if anyMatch songs_data song artist then
    .contentRecs (displayAll
      (content_recommendation sim song artist songs_data transformed_data k))
  else
    .contentNotFound
      ("Sorry, we couldn't find " ++ song ++
        " in our database. Please try another song.")

/-- The content-based branch read off the full module state (it consumes
only `songs_data` and `transformed_data`). -/
def contentBranchOf (sim : List ℚ → List ℚ → ℚ) (a : Artifacts)
    (song artist : String) (k : Nat) : RunOutcome :=
  contentBranch sim a.songs_data a.transformed_data song artist k

/-- One full query after the button press, app.py lines 186-307: lowercase
the raw inputs (lines 192-193), choose `filtering_type` (lines 199-205), then
run the content branch, the hybrid branch (constructing the recommender with
`k` and `content_based_weight` and displaying its frame, lines 266-305), or
the final `elif`'s warning (lines 306-307). `csim`/`isim` are the similarity
measures of the spec-modelled recommenders. -/
def runApp (csim isim : List ℚ → List ℚ → ℚ) (a : Artifacts)
    (rawSong rawArtist : String) (k diversity : Nat) : RunOutcome :=
  let song := pyLower rawSong
  let artist := pyLower rawArtist
  match filtering_type (hybrid_available a) a.filtered_data song artist with
  | .contentBased => contentBranchOf csim a song artist k
  | .hybrid =>
    if hybrid_available a then
      .hybridRecs (displayAll
        (give_recommendations csim isim k (content_based_weight diversity)
          song artist (a.filtered_data.getD [])
          (a.transformed_hybrid_data.getD []) (a.track_ids.getD [])
          (a.interaction_matrix.getD [])))
    else .hybridUnavailableWarning

/-- Whether an outcome is the hybrid recommender's. -/
def isHybridRecs : RunOutcome → Bool
  | .hybridRecs _ => true
  | _ => false

/-- Whether an outcome is a normal content-path result (recommendations or
the not-found message). -/
def isContentResult : RunOutcome → Bool
  | .contentRecs _ => true
  | .contentNotFound _ => true
  | _ => false

/-- The lowercased query pair occurs in the filtered catalog. -/
def filteredMatches (a : Artifacts) (song artist : String) : Bool :=
  match a.filtered_data with
  | Option.some fd => anyMatch fd song artist
  | Option.none => false

/-- The query flow with the module state threaded explicitly: every step of
app.py lines 186-307 only reads the loaded artifacts, so the state handed
back is the state handed in. -/
def queryFlow (csim isim : List ℚ → List ℚ → ℚ) (a : Artifacts)
    (rawSong rawArtist : String) (k diversity : Nat) :
    RunOutcome × Artifacts :=
  (runApp csim isim a rawSong rawArtist k diversity, a)

/-- The display loop prints the row index as the rank for every row past the
first: what "ranks are in order" means for a rendered page. -/
def ranksInOrder (items : List DisplayItem) : Prop :=
  ∀ n item, items.get? n = Option.some item → 1 ≤ n →
    displayedRank item = Option.some n

/-! ### Supporting lemmas -/

theorem displayFrom_get? (l : List SongRow) (m n : Nat) :
    (displayFrom m l).get? n =
      (l.get? n).map fun r => displayRecommendation (m + n) r := by
  induction l generalizing m n with
  | nil => simp [displayFrom]
  | cons r rs ih =>
    cases n with
    | zero => simp [displayFrom]
    | succ n =>
      simp only [displayFrom, List.get?_cons_succ, ih (m + 1) n]
      have : m + 1 + n = m + (n + 1) := by omega
      rw [this]

theorem displayedRank_pos (n : Nat) (r : SongRow) (h : 1 ≤ n) :
    displayedRank (displayRecommendation n r) = Option.some n := by
  match n, h with
  | 1, _ => rfl
  | n + 2, _ => rfl

theorem ranksInOrder_displayAll (l : List SongRow) :
    ranksInOrder (displayAll l) := by
  intro n item hget hn
  rw [displayAll, displayFrom_get?] at hget
  cases hg : l.get? n with
  | none => rw [hg] at hget; simp at hget
  | some r =>
    rw [hg] at hget
    simp only [Option.map_some', Option.some.injEq, Nat.zero_add] at hget
    rw [← hget]
    exact displayedRank_pos n r hn

theorem isContentResult_contentBranch (sim : List ℚ → List ℚ → ℚ)
    (sd : List SongRow) (td : List (List ℚ)) (song artist : String) (k : Nat) :
    isContentResult (contentBranch sim sd td song artist k) = true := by
  unfold contentBranch
  split <;> rfl

theorem isHybridRecs_contentBranch (sim : List ℚ → List ℚ → ℚ)
    (sd : List SongRow) (td : List (List ℚ)) (song artist : String) (k : Nat) :
    isHybridRecs (contentBranch sim sd td song artist k) = false := by
  unfold contentBranch
  split <;> rfl

/-! ### Concrete data for witnesses and counterexamples -/

def qRow : SongRow :=
  { name := "a song", artist := "an artist",
    spotify_preview_url := PyVal.str " http preview ", track_id := "t1" }

def otherRow : SongRow :=
  { name := "b song", artist := "b artist",
    spotify_preview_url := PyVal.none, track_id := "t2" }

def wCatalog : List SongRow := [qRow, otherRow]

def wTids : List String := ["t1", "t2"]

def wMat : List (List ℚ) := [[1, 0], [0, 1]]

def wArtifacts : Artifacts :=
  { songs_data := wCatalog
    transformed_data := wMat
    filtered_data := Option.some wCatalog
    interaction_matrix := Option.some wMat
    transformed_hybrid_data := Option.some wMat
    track_ids := Option.some wTids }

def mismatchFiles : DataFiles :=
  { cleaned_data := Option.some [qRow, otherRow]
    cleaned_data_sample := Option.none
    transformed_data := Option.some [[1]]
    collab_filtered_data := Option.none
    interaction_matrix := Option.none
    transformed_hybrid_data := Option.none
    track_ids := Option.none }

def mismatchArtifacts : Artifacts :=
  { songs_data := [qRow, otherRow]
    transformed_data := [[1]]
    filtered_data := Option.none
    interaction_matrix := Option.none
    transformed_hybrid_data := Option.none
    track_ids := Option.none }

/-! ### Claim theorems -/

/-- C1: the hybrid recommender runs exactly when all four hybrid artifacts
were found at load time (`hybrid_available`) and the lowercased
(title, artist) pair occurs in the filtered catalog; every other press of
the button lands in the content-based path as a normal result — no branch
aborts. -/
theorem C1_hybrid_gate (csim isim : List ℚ → List ℚ → ℚ) (a : Artifacts)
    (rawSong rawArtist : String) (k d : Nat) :
    (isHybridRecs (runApp csim isim a rawSong rawArtist k d) = true ↔
        (hybrid_available a = true ∧
          filteredMatches a (pyLower rawSong) (pyLower rawArtist) = true)) ∧
      (isHybridRecs (runApp csim isim a rawSong rawArtist k d) = true ∨
        isContentResult (runApp csim isim a rawSong rawArtist k d) = true) := by
  cases hav : hybrid_available a with
  | false =>
    simp [runApp, filtering_type, hav, filteredMatches, contentBranchOf,
      isHybridRecs_contentBranch, isContentResult_contentBranch]
  | true =>
    cases hfd : a.filtered_data with
    | none =>
      simp [runApp, filtering_type, hav, hfd, filteredMatches,
        isHybridRecs_contentBranch, contentBranchOf,
        isContentResult_contentBranch]
    | some fd =>
      cases hm : anyMatch fd (pyLower rawSong) (pyLower rawArtist) with
      | false =>
        simp [runApp, filtering_type, hav, hfd, hm, filteredMatches,
          isHybridRecs_contentBranch, contentBranchOf,
          isContentResult_contentBranch]
      | true =>
        simp [runApp, filtering_type, hav, hfd, hm, filteredMatches,
          isHybridRecs]

/-- C2: resolution lowercases both title and artist before the exact equality
test against the catalog's name and artist columns, so two queries differing
only in letter case resolve identically, and a resolved index always matches
on both fields jointly (a matching title with a non-matching artist cannot
resolve). -/
theorem C2_resolution_case_insensitive (c : List SongRow)
    (t1 a1 t2 a2 : String) (ht : pyLower t1 = pyLower t2)
    (ha : pyLower a1 = pyLower a2) :
    resolveQuery c t1 a1 = resolveQuery c t2 a2 ∧
      ∀ i, resolveQuery c t1 a1 = Option.some i →
        ∃ h : i < c.length,
          (c.get ⟨i, h⟩).name = pyLower t1 ∧
            (c.get ⟨i, h⟩).artist = pyLower a1 := by
  constructor
  · unfold resolveQuery
    rw [ht, ha]
  · intro i hi
    unfold resolveQuery at hi
    rw [List.findIdx?_eq_some_iff_getElem] at hi
    obtain ⟨hlen, hp, _⟩ := hi
    simp only [Bool.and_eq_true, beq_iff_eq] at hp
    exact ⟨hlen, hp.1, hp.2⟩

/-- Witness for C2: two casings of the same query resolve identically on a
concrete catalog, and resolution matched both fields. -/
theorem C2_resolution_case_insensitive_witness :
    resolveQuery wCatalog "A Song" "An Artist" =
        resolveQuery wCatalog "a SONG" "aN aRTIST" ∧
      ∀ i, resolveQuery wCatalog "A Song" "An Artist" = Option.some i →
        ∃ h : i < wCatalog.length,
          (wCatalog.get ⟨i, h⟩).name = pyLower "A Song" ∧
            (wCatalog.get ⟨i, h⟩).artist = pyLower "An Artist" :=
  C2_resolution_case_insensitive wCatalog "A Song" "An Artist" "a SONG"
    "aN aRTIST" (by decide) (by decide)

/-- C3: when the lowercased pair matches no catalog row, the content branch
produces the "couldn't find ... in our database" message and nothing else —
in particular it never produces recommendations. -/
theorem C3_content_not_found (sim : List ℚ → List ℚ → ℚ)
    (songs_data : List SongRow) (td : List (List ℚ))
    (rawSong rawArtist : String) (k : Nat)
    (h : anyMatch songs_data (pyLower rawSong) (pyLower rawArtist) = false) :
    contentBranch sim songs_data td (pyLower rawSong) (pyLower rawArtist) k =
        RunOutcome.contentNotFound
          ("Sorry, we couldn't find " ++ pyLower rawSong ++
            " in our database. Please try another song.") ∧
      ∀ items,
        contentBranch sim songs_data td (pyLower rawSong) (pyLower rawArtist)
            k ≠ RunOutcome.contentRecs items := by
  unfold contentBranch
  rw [h]
  simp

/-- Witness for C3 on a query absent from a concrete catalog. -/
theorem C3_content_not_found_witness :
    contentBranch dotProd wCatalog wMat (pyLower "Missing Song")
          (pyLower "Nobody") 5 =
        RunOutcome.contentNotFound
          ("Sorry, we couldn't find " ++ pyLower "Missing Song" ++
            " in our database. Please try another song.") ∧
      ∀ items,
        contentBranch dotProd wCatalog wMat (pyLower "Missing Song")
            (pyLower "Nobody") 5 ≠ RunOutcome.contentRecs items :=
  C3_content_not_found dotProd wCatalog wMat "Missing Song" "Nobody" 5
    (by decide)

/-- C4 counterexample: the module-level loading binds a 2-row catalog with a
1-row content feature matrix and succeeds — no alignment is verified when
the artifacts are bound, so a violated invariant does not fail at that
point. -/
theorem C4_load_no_fail_fast_counterexample :
    loadArtifacts mismatchFiles (fun l => (l, l)) (fun _ => Option.none) =
        LoadResult.ok mismatchArtifacts false ∧
      mismatchArtifacts.songs_data.length ≠
        mismatchArtifacts.transformed_data.length :=
  ⟨rfl, by decide⟩

/-- C4 amended: the loading phase performs no alignment verification at all —
whenever the catalog file and the transformed-data file are present, loading
binds them and reports success, whatever their dimensions, so a
dimension-mismatch is not caught at load time. -/
theorem C4_load_binds_without_alignment_check (files : DataFiles)
    (dfcf : MutFn (List SongRow) (List SongRow))
    (transform : List SongRow → Option (List (List ℚ)))
    (songs : List SongRow) (m : List (List ℚ))
    (h1 : files.cleaned_data = Option.some songs)
    (h2 : files.transformed_data = Option.some m) :
    loadArtifacts files dfcf transform =
      LoadResult.ok
        { songs_data := songs
          transformed_data := m
          filtered_data := files.collab_filtered_data
          interaction_matrix := files.interaction_matrix
          transformed_hybrid_data := files.transformed_hybrid_data
          track_ids := files.track_ids }
        (files.collab_filtered_data.isSome && files.interaction_matrix.isSome
          && files.transformed_hybrid_data.isSome && files.track_ids.isSome) := by
  unfold loadArtifacts
  rw [h1, h2]
  rfl

/-- Witness for the amended C4, at the mismatched input of the
counterexample. -/
theorem C4_load_binds_without_alignment_check_witness :
    loadArtifacts mismatchFiles (fun l => (l, l)) (fun _ => Option.none) =
      LoadResult.ok
        { songs_data := [qRow, otherRow]
          transformed_data := [[1]]
          filtered_data := Option.none
          interaction_matrix := Option.none
          transformed_hybrid_data := Option.none
          track_ids := Option.none }
        false :=
  C4_load_binds_without_alignment_check mismatchFiles (fun l => (l, l))
    (fun _ => Option.none) [qRow, otherRow] [[1]] rfl rfl

/-- C5: for every diversity value d in {1, …, 9} chosen on the slider, the
content weight passed to the hybrid recommender equals 1 − d/10, lies within
[0, 1], and is strictly decreasing in d. -/
theorem C5_diversity_weight (d : Nat) (h1 : 1 ≤ d) (h2 : d ≤ 9) :
    content_based_weight d = 1 - (d : ℚ) / 10 ∧
      0 ≤ content_based_weight d ∧ content_based_weight d ≤ 1 ∧
      ∀ d2 : Nat, d < d2 → d2 ≤ 9 →
        content_based_weight d2 < content_based_weight d := by
  have hd9 : (d : ℚ) ≤ 9 := by exact_mod_cast h2
  have hd1 : (1 : ℚ) ≤ (d : ℚ) := by exact_mod_cast h1
  refine ⟨rfl, ?_, ?_, ?_⟩
  · unfold content_based_weight; linarith
  · unfold content_based_weight; linarith
  · intro d2 hlt _
    have : (d : ℚ) < (d2 : ℚ) := by exact_mod_cast hlt
    unfold content_based_weight
    linarith

/-- Witness for C5 at d = 3. -/
theorem C5_diversity_weight_witness :
    content_based_weight 3 = 1 - (3 : ℚ) / 10 ∧
      0 ≤ content_based_weight 3 ∧ content_based_weight 3 ≤ 1 ∧
      ∀ d2 : Nat, 3 < d2 → d2 ≤ 9 →
        content_based_weight d2 < content_based_weight 3 :=
  C5_diversity_weight 3 (by norm_num) (by norm_num)

/-- C6: in both the content and hybrid display paths, the row at index 0 is
the query itself, rendered as the "Currently Playing" block, and every row
at index n ≥ 1 is rendered with its printed rank equal to its row index. -/
theorem C6_rank_zero_convention (csim isim : List ℚ → List ℚ → ℚ)
    (songs_data fd : List SongRow) (td thd im : List (List ℚ))
    (tids : List String) (song artist : String) (k : Nat) (w : ℚ)
    (i : Nat) (qrow : SongRow)
    (hi : songs_data.findIdx?
      (fun r => r.name == song && r.artist == artist) = Option.some i)
    (hq : songs_data.get? i = Option.some qrow)
    (j : Nat) (qrow2 : SongRow)
    (hj : fd.findIdx?
      (fun r => r.name == song && r.artist == artist) = Option.some j)
    (hq2 : fd.get? j = Option.some qrow2)
    (t : Nat)
    (ht2 : tids.findIdx? (fun s => s == qrow2.track_id) = Option.some t) :
    ((displayAll
          (content_recommendation csim song artist songs_data td k)).get? 0 =
        Option.some
          (DisplayItem.currentlyPlaying (pyTitle qrow.name)
            (pyTitle qrow.artist) (audioUrl qrow.spotify_preview_url)) ∧
      ranksInOrder
        (displayAll
          (content_recommendation csim song artist songs_data td k))) ∧
    ((displayAll
          (give_recommendations csim isim k w song artist fd thd tids
            im)).get? 0 =
        Option.some
          (DisplayItem.currentlyPlaying (pyTitle qrow2.name)
            (pyTitle qrow2.artist) (audioUrl qrow2.spotify_preview_url)) ∧
      ranksInOrder
        (displayAll
          (give_recommendations csim isim k w song artist fd thd tids
            im))) := by
  refine ⟨⟨?_, ranksInOrder_displayAll _⟩, ⟨?_, ranksInOrder_displayAll _⟩⟩
  · simp only [content_recommendation, hi, hq]
    rfl
  · simp only [give_recommendations, hj, hq2, ht2]
    rfl

/-- Witness for C6 on a concrete two-song catalog used for both paths. -/
theorem C6_rank_zero_convention_witness :
    ((displayAll
          (content_recommendation dotProd "a song" "an artist" wCatalog wMat
            5)).get? 0 =
        Option.some
          (DisplayItem.currentlyPlaying (pyTitle "a song")
            (pyTitle "an artist") (audioUrl (PyVal.str " http preview "))) ∧
      ranksInOrder
        (displayAll
          (content_recommendation dotProd "a song" "an artist" wCatalog wMat
            5))) ∧
    ((displayAll
          (give_recommendations dotProd dotProd 5 (1 / 2) "a song" "an artist"
            wCatalog wMat wTids wMat)).get? 0 =
        Option.some
          (DisplayItem.currentlyPlaying (pyTitle "a song")
            (pyTitle "an artist") (audioUrl (PyVal.str " http preview "))) ∧
      ranksInOrder
        (displayAll
          (give_recommendations dotProd dotProd 5 (1 / 2) "a song" "an artist"
            wCatalog wMat wTids wMat))) :=
  C6_rank_zero_convention dotProd dotProd wCatalog wCatalog wMat wMat wMat
    wTids "a song" "an artist" 5 (1 / 2) 0 qRow (by decide) (by decide) 0 qRow
    (by decide) (by decide) 0 (by decide)

/-- C7: the content-based entry point never touches the collaborative
artifacts: two module states that agree on the catalog and the content
feature matrix, however much they differ in the interaction matrix, track
identifier list, filtered catalog or transformed hybrid matrix, produce the
same content-based outcome. -/
theorem C7_content_noninterference (sim : List ℚ → List ℚ → ℚ)
    (a1 a2 : Artifacts) (hs : a1.songs_data = a2.songs_data)
    (ht : a1.transformed_data = a2.transformed_data)
    (song artist : String) (k : Nat) :
    contentBranchOf sim a1 song artist k =
      contentBranchOf sim a2 song artist k := by
  unfold contentBranchOf
  rw [hs, ht]

/-- Witness for C7: two states sharing the content artifacts but with every
collaborative artifact differing. -/
theorem C7_content_noninterference_witness :
    contentBranchOf dotProd
      { songs_data := [⟨"a song", "an artist", PyVal.none, "t0"⟩]
        transformed_data := [[1, 0]]
        filtered_data := Option.none
        interaction_matrix := Option.none
        transformed_hybrid_data := Option.none
        track_ids := Option.none } "a song" "an artist" 5 =
    contentBranchOf dotProd
      { songs_data := [⟨"a song", "an artist", PyVal.none, "t0"⟩]
        transformed_data := [[1, 0]]
        filtered_data := Option.some [⟨"a song", "an artist", PyVal.none, "t0"⟩]
        interaction_matrix := Option.some [[2, 3], [4, 5]]
        transformed_hybrid_data := Option.some [[7]]
        track_ids := Option.some ["t0"] } "a song" "an artist" 5 :=
  C7_content_noninterference dotProd _ _ rfl rfl "a song" "an artist" 5

/-- C8: after loading completes, no step of the query flow mutates the
catalog, the content feature matrix, the interaction matrix or the track
identifier list — the state threaded through a whole query comes back
unchanged — and the on-the-fly feature computation hands the (possibly
mutating) cleaning call only a copy of the catalog, so the module's catalog
is unchanged by it as well. -/
theorem C8_no_mutation_after_load (csim isim : List ℚ → List ℚ → ℚ)
    (a : Artifacts) (rawSong rawArtist : String) (k d : Nat)
    (songs : List SongRow) (dfcf : MutFn (List SongRow) (List SongRow))
    (transform : List SongRow → Option (List (List ℚ))) :
    (queryFlow csim isim a rawSong rawArtist k d).2 = a ∧
      (computeFeaturesOnTheFly songs dfcf transform).2 = songs :=
  ⟨rfl, rfl⟩

/-- C9: the recommendation count comes from a fixed selectbox over
{5, 10, 15, 20} with default position 1, so every selectable k is one of
those four values, is strictly positive (the spec's InvalidParameter branch
for k ≤ 0 is unreachable from this interface), and the default is 10. -/
theorem C9_k_selectbox (choice : Nat) (h : choice < kOptions.length) :
    (selectK choice h = 5 ∨ selectK choice h = 10 ∨ selectK choice h = 15 ∨
        selectK choice h = 20) ∧
      0 < selectK choice h ∧
      selectK kDefaultIndex (by decide) = 10 := by
  have h4 : choice < 4 := h
  have hc : choice = 0 ∨ choice = 1 ∨ choice = 2 ∨ choice = 3 := by omega
  rcases hc with rfl | rfl | rfl | rfl
  · exact ⟨Or.inl rfl, Nat.succ_pos 4, rfl⟩
  · exact ⟨Or.inr (Or.inl rfl), Nat.succ_pos 9, rfl⟩
  · exact ⟨Or.inr (Or.inr (Or.inl rfl)), Nat.succ_pos 14, rfl⟩
  · exact ⟨Or.inr (Or.inr (Or.inr rfl)), Nat.succ_pos 19, rfl⟩

/-- Witness for C9 at the default position. -/
theorem C9_k_selectbox_witness :
    (selectK 1 (by decide) = 5 ∨ selectK 1 (by decide) = 10 ∨
        selectK 1 (by decide) = 15 ∨ selectK 1 (by decide) = 20) ∧
      0 < selectK 1 (by decide) ∧
      selectK kDefaultIndex (by decide) = 10 :=
  C9_k_selectbox 1 (by decide)

/-- C10: in every branch of both display loops, an audio preview is rendered
if and only if the preview-URL cell, stringified and stripped, is non-empty
and not equal (case-insensitively) to "nan"; an absent cell renders no
preview and raises nothing. -/
theorem C10_audio_guard (ind : Nat) (r : SongRow) :
    audioOf (displayRecommendation ind r) = audioUrl r.spotify_preview_url ∧
      ((audioUrl r.spotify_preview_url).isSome = true ↔
        (stripUrl r.spotify_preview_url ≠ "" ∧
          pyLower (stripUrl r.spotify_preview_url) ≠ "nan")) ∧
      audioUrl PyVal.none = Option.none := by
  refine ⟨?_, ?_, by decide⟩
  · unfold displayRecommendation
    split
    · rfl
    · split <;> rfl
  · unfold audioUrl
    split
    · rename_i hcond
      simp only [Option.isSome_some, true_iff]
      simpa [Bool.and_eq_true, ne_eq, bne_iff_ne] using hcond
    · rename_i hcond
      simp only [Option.isSome_none, Bool.false_eq_true, false_iff]
      intro hc
      apply hcond
      simpa [Bool.and_eq_true, ne_eq, bne_iff_ne] using hc

end SongRec
